import Mathlib

/-!
The server glue of node-apollo-1: `src/index.js` and `src/models/index.js`

A shallow embedding of the original logic of the repository:

* `getMe` and `context` (token check and per-operation context construction),
* `formatError` (the error sanitizer),
* `createUsersWithMessages` and the start-up sequence (seed data, `sequelize.sync`),
* the connection selection of `src/models/index.js`.

External libraries (`jsonwebtoken`, `sequelize`, `dataloader`, the JavaScript built-ins
`String.prototype.replace`, `Date.prototype.getSeconds/setSeconds`, object spread) are modelled
by their documented behaviour; effects that matter to the specification (token verification,
loader construction, `sync`, `create`, `listen`) are recorded in explicit effect logs.
-/

set_option autoImplicit false

namespace NodeApollo

/-! ## JavaScript values, strings and objects -/

/-- JavaScript values as far as the glue code handles them. Objects are references: object
spread is a shallow copy, so only the reference's identity matters. -/
inductive JsValue where
  | undefined
  | null
  | boolean (b : Bool)
  | number (n : Int)
  | string (s : String)
  | object (ref : Nat)
  deriving DecidableEq, Repr

/-- `String.prototype.replace(searchValue, replaceValue)` for a string `searchValue` and a
`replaceValue` without `$` patterns, on character lists: the first occurrence of `pat`
(scanning from the left) is replaced by `rep`; a string without occurrence is unchanged. -/
def replaceChars (pat rep : List Char) : List Char → List Char
  | [] => if pat = [] then rep else []
  | c :: cs =>
    if pat.isPrefixOf (c :: cs) then rep ++ (c :: cs).drop pat.length
    else c :: replaceChars pat rep cs

/-- `s.replace(pat, rep)` with string arguments. -/
def replace (s pat rep : String) : String :=
  ⟨replaceChars pat.data rep.data s.data⟩

/-- `pat` occurs in `s` as a contiguous substring. -/
def occursIn (pat s : String) : Prop :=
  pat.data <:+: s.data

instance (pat s : String) : Decidable (occursIn pat s) :=
  inferInstanceAs (Decidable (pat.data <:+: s.data))

/-- An own property of a JavaScript object: key, value and the `[[Enumerable]]` attribute. -/
structure Property where
  key : String
  value : JsValue
  enumerable : Bool
  deriving DecidableEq, Repr

/-- The own property of an object (given as its property list) under key `k`. -/
def getOwnProperty (props : List Property) (k : String) : Option Property :=
  props.find? (fun p => p.key = k)

/-- Object spread `{ ...o }` (CopyDataProperties): the own enumerable properties of `o`, in
order; every other own property is left behind. -/
def spread (props : List Property) : List Property :=
  props.filter (fun p => p.enumerable)

/-! ## The error sanitizer -/

/-- The error handed to `formatError`: a `GraphQLError`, whose `message` is a string, together
with its other own properties (`locations`, `path`, `extensions`, `originalError`, ...). -/
structure GraphQLError where
  message : String
  props : List Property
  deriving DecidableEq, Repr

/-- The `formatError` option of the `ApolloServer` in `src/index.js`:
`message = error.message.replace('SequelizeValidationError: ', '').replace('Validation error: ', '')`
and the result is `{ ...error, message }`. -/
def formatError (error : GraphQLError) : GraphQLError :=
  let message :=
    replace (replace error.message "SequelizeValidationError: " "") "Validation error: " ""
  { message := message, props := spread error.props }

/-! ## Environment, requests and token verification -/

/-- The variables of `process.env` the code reads; `none` is `undefined`. -/
structure Env where
  DATABASE_URL : Option String
  TEST_DATABASE : Option String
  DATABASE : Option String
  DATABASE_USER : Option String
  DATABASE_PASSWORD : Option String
  SECRET : Option String
  deriving DecidableEq, Repr

/-- JavaScript truthiness of a string-or-undefined value: `undefined` and `''` are falsy. -/
def truthy : Option String → Bool
  | some s => decide (s ≠ "")
  | none => false

/-- The operator `a || b` on string-or-undefined values. -/
def orElse (a b : Option String) : Option String :=
  if truthy a then a else b

/-- The value of a string-or-undefined expression. -/
def ofOptionString : Option String → JsValue
  | some s => .string s
  | none => .undefined

/-- An incoming HTTP request, as far as the code reads it: its headers. -/
structure Request where
  headers : List (String × String)
  deriving DecidableEq, Repr

/-- The lookup `req.headers[name]`. -/
def Request.header (req : Request) (name : String) : Option String :=
  req.headers.lookup name

/-- The connection object of a subscription operation. -/
structure Connection where
  context : JsValue
  deriving DecidableEq, Repr

/-- What `jwt.verify` throws: a `JsonWebTokenError`, `TokenExpiredError`, `NotBeforeError` or
anything else, with its name and message. -/
structure VerifyError where
  name : String
  message : String
  deriving DecidableEq, Repr

/-- The `jsonwebtoken` library: `verify(token, secret)` returns the decoded payload or throws. -/
structure Jwt where
  verify : String → Option String → Except VerifyError JsValue

/-- Errors raised by the glue code itself. -/
inductive Exception where
  | AuthenticationError (message : String)
  deriving DecidableEq, Repr

/-- Observable library calls made while a context is built. -/
inductive Effect where
  | jwtVerify (token : String) (secret : Option String)
  | newDataLoader
  deriving DecidableEq, Repr

/-- The function `getMe` of `src/index.js`: the result (returned value or thrown error)
together with the library calls made. -/
def getMe (jwt : Jwt) (env : Env) (req : Request) : Except Exception JsValue × List Effect :=
  let token := req.header "x-token"
  if truthy token then
    match jwt.verify (token.getD "") env.SECRET with
    | .ok payload => (.ok payload, [.jwtVerify (token.getD "") env.SECRET])
    | .error _ =>
      (.error (.AuthenticationError "Your session expired. Sign in again."),
        [.jwtVerify (token.getD "") env.SECRET])
  else
    (.ok .undefined, [])

/-! ## Persistence handle and the batched loader -/

/-- A row of the `users` table. -/
structure UserRow where
  id : Nat
  username : String
  email : String
  role : Option String
  deriving DecidableEq, Repr

/-- A row of the `messages` table. -/
structure MessageRow where
  id : Nat
  text : String
  createdAt : Int
  userId : Nat
  deriving DecidableEq, Repr

/-- The persistence handle `models` (`{ User, Message }`), seen through the rows its two
models give access to. -/
structure Models where
  User : List UserRow
  Message : List MessageRow
  deriving DecidableEq, Repr

/-- The bulk lookup `models.User.findAll` restricted to a set of ids: the matching rows, in table order. -/
def findAllById (rows : List UserRow) (ids : List Nat) : List UserRow :=
  rows.filter (fun user => decide (user.id ∈ ids))

/-- Modelled from the spec: `loaders.user.batchUsers` is defined in `src/loaders`, which is not
among the sources. Following section 4.3: one bulk lookup for the distinct key set, then one
result per input key in input order, repeated for duplicate keys, and an absent slot for a key
without matching row. -/
def batchUsers (keys : List Nat) (models : Models) : List (Option UserRow) :=
  let users := findAllById models.User keys.dedup
  keys.map (fun key => users.find? (fun user => decide (user.id = key)))

/-- A `DataLoader` instance: the batch function it was constructed with. -/
structure DataLoader where
  batchLoadFn : List Nat → List (Option UserRow)

/-! ## Per-operation context -/

/-- Values stored in a context object. -/
inductive ContextValue where
  | value (v : JsValue)
  | models (m : Models)
  | loaders (user : DataLoader)

/-- A context object: its properties in the order of the object literal. -/
abbrev Context := List (String × ContextValue)

/-- The keys of a context object. -/
def Context.keys (ctx : Context) : List String :=
  ctx.map Prod.fst

/-- The property `ctx.me`, if the context has one. -/
def Context.me (ctx : Context) : Option JsValue :=
  ctx.findSome? (fun kv => match kv with
    | ("me", .value v) => some v
    | _ => none)

/-- The property `ctx.secret`, if the context has one. -/
def Context.secret (ctx : Context) : Option JsValue :=
  ctx.findSome? (fun kv => match kv with
    | ("secret", .value v) => some v
    | _ => none)

/-- The property `ctx.models`, if the context has one. -/
def Context.models (ctx : Context) : Option Models :=
  ctx.findSome? (fun kv => match kv with
    | ("models", .models m) => some m
    | _ => none)

/-- The property `ctx.loaders.user`, if the context has one. -/
def Context.userLoader (ctx : Context) : Option DataLoader :=
  ctx.findSome? (fun kv => match kv with
    | ("loaders", .loaders user) => some user
    | _ => none)

/-- The `context` option of the `ApolloServer` in `src/index.js`, called with
`{ req, connection }`; `none` for an argument is `undefined`, and the result `.ok none` is the
`undefined` returned when neither is present. -/
def context (jwt : Jwt) (env : Env) (models : Models)
    (req : Option Request) (connection : Option Connection) :
    Except Exception (Option Context) × List Effect :=
  match connection with
  | some _ =>
    (.ok (some
      [("models", .models models),
       ("loaders", .loaders ⟨fun keys => batchUsers keys models⟩)]),
     [.newDataLoader])
  | none =>
    match req with
    | some req =>
      match getMe jwt env req with
      | (.error e, log) => (.error e, log)
      | (.ok me, log) =>
        (.ok (some
          [("models", .models models),
           ("me", .value me),
           ("secret", .value (ofOptionString env.SECRET)),
           ("loaders", .loaders ⟨fun keys => batchUsers keys models⟩)]),
         log ++ [.newDataLoader])
    | none => (.ok none, [])

/-! ## Dates (ECMAScript time values) -/

def msPerSecond : Int := 1000
def msPerMinute : Int := 60000
def msPerHour : Int := 3600000
def msPerDay : Int := 86400000

def Day (t : Int) : Int := t / msPerDay
def HourFromTime (t : Int) : Int := (t / msPerHour) % 24
def MinFromTime (t : Int) : Int := (t / msPerMinute) % 60
def SecFromTime (t : Int) : Int := (t / msPerSecond) % 60
def msFromTime (t : Int) : Int := t % msPerSecond

def MakeTime (hour min sec ms : Int) : Int :=
  hour * msPerHour + min * msPerMinute + sec * msPerSecond + ms

def MakeDate (day time : Int) : Int := day * msPerDay + time

/-- A change of the local zone's offset from UTC: from the instant `instant` (a UTC time
value) on, local time is UTC plus `offset` milliseconds. -/
structure Transition where
  instant : Int
  offset : Int
  deriving DecidableEq, Repr

/-- The local time zone of the process: the offset in force before the first transition, and
the transitions in increasing order of their instants. -/
structure TimeZone where
  initial : Int
  transitions : List Transition
  deriving DecidableEq, Repr

/-- The offset of the zone in force at the instant `t` (a UTC time value). -/
def offsetAt (tz : TimeZone) (t : Int) : Int :=
  tz.transitions.foldl (fun offset tr => if tr.instant ≤ t then tr.offset else offset) tz.initial

/-- The offset with which the local time `t` is read, starting from the offset `offset` in
force before the listed transitions: a local time before a transition is read with the offset
before it, and so is a local time that the transition repeats or skips. -/
def localOffsetFrom (offset : Int) : List Transition → Int → Int
  | [], _ => offset
  | tr :: rest, t =>
    if t < tr.instant + max offset tr.offset then offset
    else localOffsetFrom tr.offset rest t

/-- The offset with which the zone reads the local time `t`. -/
def localOffset (tz : TimeZone) (t : Int) : Int :=
  localOffsetFrom tz.initial tz.transitions t

/-- Local time of a time value (the abstract operation `LocalTime`). -/
def LocalTime (tz : TimeZone) (t : Int) : Int := t + offsetAt tz t

/-- The time value of a local time (the abstract operation `UTC`). -/
def UTC (tz : TimeZone) (t : Int) : Int := t - localOffset tz t

/-- The abstract operation `TimeClip`: a time value beyond 8.64e15 milliseconds from the epoch
becomes `NaN` (`none`). -/
def TimeClip (time : Int) : Option Int :=
  if time < -8640000000000000 ∨ 8640000000000000 < time then none else some time

/-- A `Date` object: its time value in milliseconds since the epoch, `none` for `NaN` (an
invalid date). -/
structure JsDate where
  time : Option Int
  deriving DecidableEq, Repr

/-- The method `date.getSeconds()`: `NaN` for an invalid date. -/
def getSeconds (tz : TimeZone) (date : JsDate) : Option Int :=
  date.time.map (fun t => SecFromTime (LocalTime tz t))

/-- The sum `x + 1` of a number (`none` is `NaN`) and one. -/
def plusOne (x : Option Int) : Option Int :=
  x.map (fun n => n + 1)

/-- The method `date.setSeconds(sec)`: what the call returns (the new time value), and the
mutated date. An invalid date stays invalid; a `NaN` argument or a result beyond the range of
time values invalidates the date. -/
def setSeconds (tz : TimeZone) (date : JsDate) (sec : Option Int) : Option Int × JsDate :=
  match date.time with
  | none => (none, date)
  | some time =>
    match sec with
    | none => (none, { time := none })
    | some s =>
      let t := LocalTime tz time
      let newDate := MakeDate (Day t) (MakeTime (HourFromTime t) (MinFromTime t) s (msFromTime t))
      let u := TimeClip (UTC tz newDate)
      (u, { time := u })

/-! ## Seed data and start-up -/

/-- A message in the argument of `models.User.create`; `createdAt` is a number, `none` for
`NaN`. -/
structure MessageInput where
  text : String
  createdAt : Option Int
  deriving DecidableEq, Repr

/-- The first argument of `models.User.create`. -/
structure UserInput where
  username : String
  email : String
  password : String
  role : Option String
  messages : List MessageInput
  deriving DecidableEq, Repr

/-- The function `createUsersWithMessages` of `src/index.js`: the `models.User.create` calls it
issues (each with `include: [models.Message]`), in order, and the final state of the date
object it mutates. `create user` tells whether the awaited creation of `user` resolves; when
the first one is rejected the routine ends there, before the second call and its arguments are
evaluated. -/
def createUsersWithMessages (tz : TimeZone) (create : UserInput → Bool) (date : JsDate) :
    List UserInput × JsDate :=
  let (createdAt1, date) := setSeconds tz date (plusOne (getSeconds tz date))
  let user1 : UserInput :=
    { username := "rwieruch", email := "hello@robin.com", password := "rwieruch",
      role := some "ADMIN",
      messages := [{ text := "Published the Road to learn React", createdAt := createdAt1 }] }
  if create user1 then
    let (createdAt2, date) := setSeconds tz date (plusOne (getSeconds tz date))
    let (createdAt3, date) := setSeconds tz date (plusOne (getSeconds tz date))
    let user2 : UserInput :=
      { username := "ddavids", email := "hello@david.com", password := "ddavids",
        role := none,
        messages := [{ text := "Happy to release ...", createdAt := createdAt2 },
                     { text := "Published a complete ...", createdAt := createdAt3 }] }
    ([user1, user2], date)
  else
    ([user1], date)

/-- Over the three seconds after the instant `d` the zone keeps the offset it has at `d`, and
the local times one, two and three seconds after the local time of `d` are read with that
offset: none of them is read with another offset because a transition repeats or skips it. -/
def steadyOffset (tz : TimeZone) (d : Int) : Prop :=
  offsetAt tz (d + 1000) = offsetAt tz d
  ∧ offsetAt tz (d + 2000) = offsetAt tz d
  ∧ localOffset tz (d + offsetAt tz d + 1000) = offsetAt tz d
  ∧ localOffset tz (d + offsetAt tz d + 2000) = offsetAt tz d
  ∧ localOffset tz (d + offsetAt tz d + 3000) = offsetAt tz d

instance (tz : TimeZone) (d : Int) : Decidable (steadyOffset tz d) := by
  unfold steadyOffset
  infer_instance

/-- The arguments of the `Sequelize` constructor call in `src/models/index.js`. -/
inductive SequelizeConfig where
  | url (databaseUrl : String) (dialect : String)
  | fields (database username password : Option String) (dialect : String)
  deriving DecidableEq, Repr

/-- The connection `sequelize` of `src/models/index.js`. -/
def sequelize (env : Env) : SequelizeConfig :=
  if truthy env.DATABASE_URL then
    .url (env.DATABASE_URL.getD "") "postgres"
  else
    .fields (orElse env.TEST_DATABASE env.DATABASE) env.DATABASE_USER env.DATABASE_PASSWORD
      "postgres"

/-- The setting the connection is built from. -/
inductive ConnectionSource where
  | DATABASE_URL
  | TEST_DATABASE
  | DATABASE
  deriving DecidableEq, Repr

/-- Which setting `sequelize` takes the database from: `DATABASE_URL` when truthy, else
`TEST_DATABASE` when truthy, else `DATABASE`. -/
def connectionSource (env : Env) : ConnectionSource :=
  if truthy env.DATABASE_URL then .DATABASE_URL
  else if truthy env.TEST_DATABASE then .TEST_DATABASE
  else .DATABASE

def eraseDatabaseOnSync : Bool := true

/-- The constant `isTest` of `src/index.js`: `!!process.env.TEST_DATABASE`. -/
def isTest (env : Env) : Bool := truthy env.TEST_DATABASE

/-- Observable calls of the start-up sequence. -/
inductive StartupEffect where
  | sync (connection : SequelizeConfig) (force : Bool)
  | create (user : UserInput)
  | listen (port : Nat)
  deriving DecidableEq, Repr

/-- The start-up sequence at the end of `src/index.js`: `sequelize.sync({ force: isTest })`,
and once it has resolved (`syncOk`), the seed routine when `isTest`, and `httpServer.listen`.
The seed routine is not awaited: its first creation is issued before `listen`, the second one
after. `now` is the time value of `new Date()`. -/
def startup (env : Env) (tz : TimeZone) (create : UserInput → Bool) (now : Int)
    (syncOk : Bool) : List StartupEffect :=
  .sync (sequelize env) (isTest env) ::
    (if syncOk then
      (if isTest env then
        match (createUsersWithMessages tz create { time := some now }).1 with
        | [] => [.listen 8000]
        | user :: users => .create user :: .listen 8000 :: users.map .create
      else [.listen 8000])
    else [])

/-- The start-up sequence resets the schema: it calls `sync` with `force: true`. -/
def resetsSchema (effects : List StartupEffect) : Bool :=
  effects.any (fun e => match e with
    | .sync _ force => force
    | _ => false)

/-- The start-up sequence inserts seed data: it issues a creation. -/
def insertsSeed (effects : List StartupEffect) : Bool :=
  effects.any (fun e => match e with
    | .create _ => true
    | _ => false)

/-! ## Concrete inputs -/

/-- A configuration for the ephemeral test store. -/
def testEnv : Env :=
  { DATABASE_URL := none, TEST_DATABASE := some "testdb", DATABASE := some "postgres",
    DATABASE_USER := some "postgres", DATABASE_PASSWORD := some "postgres",
    SECRET := some "s3cret" }

/-- A configuration with only `DATABASE` set. -/
def plainEnv : Env :=
  { DATABASE_URL := none, TEST_DATABASE := none, DATABASE := some "postgres",
    DATABASE_USER := some "postgres", DATABASE_PASSWORD := some "postgres",
    SECRET := some "s3cret" }

/-- A configuration with both `DATABASE_URL` and `TEST_DATABASE` set. -/
def urlAndTestEnv : Env :=
  { DATABASE_URL := some "postgres://db.example.com/production",
    TEST_DATABASE := some "testdb", DATABASE := none,
    DATABASE_USER := none, DATABASE_PASSWORD := none, SECRET := some "s3cret" }

/-- A verifier that rejects every token as expired. -/
def expiredJwt : Jwt :=
  { verify := fun _ _ => .error { name := "TokenExpiredError", message := "jwt expired" } }

/-- A verifier that rejects every token as malformed. -/
def malformedJwt : Jwt :=
  { verify := fun _ _ => .error { name := "JsonWebTokenError", message := "jwt malformed" } }

/-- A verifier that accepts every token with the payload object 7. -/
def acceptingJwt : Jwt :=
  { verify := fun _ _ => .ok (.object 7) }

/-- A request carrying a token. -/
def tokenRequest : Request :=
  { headers := [("host", "localhost:8000"), ("x-token", "abc.def.ghi")] }

/-- A request without token. -/
def anonymousRequest : Request :=
  { headers := [("host", "localhost:8000")] }

/-- A persistence handle with two users. -/
def twoUsers : Models :=
  { User := [{ id := 1, username := "rwieruch", email := "hello@robin.com", role := some "ADMIN" },
             { id := 2, username := "ddavids", email := "hello@david.com", role := none }],
    Message := [] }

/-- An error with an enumerable `path` and the non-enumerable `originalError` of a `GraphQLError`. -/
def errorWithOriginal : GraphQLError :=
  { message := "Validation error: must be unique",
    props := [{ key := "path", value := .object 3, enumerable := true },
              { key := "originalError", value := .object 1, enumerable := false }] }

/-- The error Sequelize raises when two validators fail: its message joins the two failures. -/
def twoValidatorsError : GraphQLError :=
  { message := "Validation error: A,\nValidation error: B", props := [] }

/-- The zone UTC. -/
def utcZone : TimeZone :=
  { initial := 0, transitions := [] }

/-- The zone America/New_York in 2026: UTC-5 until 2026-03-08T07:00:00Z, then UTC-4 until
2026-11-01T06:00:00Z, then UTC-5. -/
def newYork : TimeZone :=
  { initial := -18000000,
    transitions := [{ instant := 1772953200000, offset := -14400000 },
                    { instant := 1793512800000, offset := -18000000 }] }

/-- A persistence layer in which every creation resolves. -/
def createResolves : UserInput → Bool :=
  fun _ => true

/-- A persistence layer in which every creation is rejected. -/
def createRejects : UserInput → Bool :=
  fun _ => false

/-! # Theorems -/

/-! ## Facts about `replace` -/

theorem replaceChars_of_prefix (pat rep rest : List Char) :
    replaceChars pat rep (pat ++ rest) = rep ++ rest := by
  cases h : pat ++ rest with
  | nil =>
    have hp : pat = [] := (List.append_eq_nil.mp h).1
    have hr : rest = [] := (List.append_eq_nil.mp h).2
    simp [replaceChars, hp, hr]
  | cons c cs =>
    have hpre : pat.isPrefixOf (c :: cs) = true := by
      rw [← h]; simp
    simp only [replaceChars, hpre, if_true]
    rw [← h, List.drop_left]

theorem replace_prefix (pat rest : String) : replace (pat ++ rest) pat "" = rest := by
  simp [replace, String.data_append, replaceChars_of_prefix]

theorem getOwnProperty_spread (props : List Property) (k : String) (p : Property)
    (h : getOwnProperty props k = some p) (he : p.enumerable = true) :
    getOwnProperty (spread props) k = some p := by
  induction props with
  | nil => simp [getOwnProperty] at h
  | cons q qs ih =>
    unfold getOwnProperty at h ih ⊢
    by_cases hk : q.key = k
    · have hq : q = p := by simpa [List.find?_cons, hk] using h
      subst hq
      simp [spread, List.filter_cons, he, List.find?_cons, hk]
    · have h2 : List.find? (fun p => decide (p.key = k)) qs = some p := by
        simpa [List.find?_cons, hk] using h
      have ih2 := ih h2
      by_cases hq : q.enumerable = true
      · simpa [spread, List.filter_cons, hq, List.find?_cons, hk] using ih2
      · simpa [spread, List.filter_cons, hq] using ih2

theorem of_getOwnProperty_spread (props : List Property) (k : String) (p : Property)
    (h : getOwnProperty (spread props) k = some p) :
    p ∈ props ∧ p.enumerable = true ∧ p.key = k := by
  unfold getOwnProperty spread at h
  have hmem := List.mem_of_find?_eq_some h
  have hk := List.find?_some h
  simp only [List.mem_filter] at hmem
  exact ⟨hmem.1, hmem.2, by simpa using hk⟩

theorem setSeconds_next (tz : TimeZone) (t : Int)
    (hlo : -8640000000000000 ≤ t + 1000) (hhi : t + 1000 ≤ 8640000000000000)
    (hoff : localOffset tz (t + offsetAt tz t + 1000) = offsetAt tz t) :
    setSeconds tz { time := some t } (plusOne (getSeconds tz { time := some t }))
      = (some (t + 1000), { time := some (t + 1000) }) := by
  have hdate : MakeDate (Day (LocalTime tz t))
      (MakeTime (HourFromTime (LocalTime tz t)) (MinFromTime (LocalTime tz t))
        (SecFromTime (LocalTime tz t) + 1) (msFromTime (LocalTime tz t)))
      = t + offsetAt tz t + 1000 := by
    simp only [MakeDate, MakeTime, Day, HourFromTime, MinFromTime, SecFromTime, msFromTime,
      LocalTime, msPerDay, msPerHour, msPerMinute, msPerSecond]
    omega
  have hutc : UTC tz (t + offsetAt tz t + 1000) = t + 1000 := by
    simp only [UTC, hoff]
    omega
  have hclip : TimeClip (t + 1000) = some (t + 1000) := by
    unfold TimeClip
    rw [if_neg]
    omega
  simp only [setSeconds, getSeconds, plusOne, Option.map, hdate, hutc, hclip]

theorem createUsersWithMessages_eq (tz : TimeZone) (create : UserInput → Bool) (d : Int)
    (hlo : -8640000000000000 ≤ d) (hhi : d + 3000 ≤ 8640000000000000)
    (hzone : steadyOffset tz d)
    (hcreate : ∀ user : UserInput, user.username = "rwieruch" → create user = true) :
    createUsersWithMessages tz create { time := some d }
      = ([{ username := "rwieruch", email := "hello@robin.com", password := "rwieruch",
            role := some "ADMIN",
            messages := [{ text := "Published the Road to learn React",
                           createdAt := some (d + 1000) }] },
          { username := "ddavids", email := "hello@david.com", password := "ddavids",
            role := none,
            messages := [{ text := "Happy to release ...",
                           createdAt := some (d + 2000) },
                         { text := "Published a complete ...",
                           createdAt := some (d + 3000) }] }],
         { time := some (d + 3000) }) := by
  obtain ⟨h1, h2, l1, l2, l3⟩ := hzone
  have s1 := setSeconds_next tz d (by omega) (by omega) l1
  have s2 := setSeconds_next tz (d + 1000) (by omega) (by omega)
    (by rw [h1]; rw [← l2]; congr 1; omega)
  have s3 := setSeconds_next tz (d + 2000) (by omega) (by omega)
    (by rw [h2]; rw [← l3]; congr 1; omega)
  have e2 : d + 1000 + 1000 = d + 2000 := by omega
  have e3 : d + 2000 + 1000 = d + 3000 := by omega
  rw [e2] at s2
  rw [e3] at s3
  unfold createUsersWithMessages
  rw [s1]
  dsimp only
  rw [if_pos (hcreate _ rfl), s2]
  dsimp only
  rw [s3]

theorem createUsersWithMessages_issues_first (tz : TimeZone) (create : UserInput → Bool)
    (date : JsDate) :
    ∃ user rest, (createUsersWithMessages tz create date).1 = user :: rest := by
  unfold createUsersWithMessages
  rcases setSeconds tz date (plusOne (getSeconds tz date)) with ⟨createdAt1, date1⟩
  dsimp only
  split
  · rcases setSeconds tz date1 (plusOne (getSeconds tz date1)) with ⟨createdAt2, date2⟩
    dsimp only
    rcases setSeconds tz date2 (plusOne (getSeconds tz date2)) with ⟨createdAt3, date3⟩
    exact ⟨_, _, rfl⟩
  · exact ⟨_, _, rfl⟩

theorem resetsSchema_creates (users : List UserInput) :
    resetsSchema (users.map .create) = false := by
  induction users with
  | nil => rfl
  | cons user rest ih =>
    unfold resetsSchema at ih ⊢
    simp only [List.map, List.any_cons, ih, Bool.or_false]

theorem find?_findAllById (rows : List UserRow) (ids : List Nat) (key : Nat) (h : key ∈ ids) :
    (findAllById rows ids).find? (fun user => decide (user.id = key))
      = rows.find? (fun user => decide (user.id = key)) := by
  induction rows with
  | nil => simp [findAllById]
  | cons r rs ih =>
    unfold findAllById at ih ⊢
    by_cases hr : r.id = key
    · have hm : r.id ∈ ids := hr ▸ h
      simp [List.filter_cons, h, List.find?_cons, hr]
    · by_cases hm : r.id ∈ ids
      · simpa [List.filter_cons, hm, List.find?_cons, hr] using ih
      · simpa [List.filter_cons, hm, List.find?_cons, hr] using ih

theorem batchUsers_length (keys : List Nat) (models : Models) :
    (batchUsers keys models).length = keys.length := by
  simp [batchUsers]

theorem batchUsers_getElem? (keys : List Nat) (models : Models) (i : Nat) (h : i < keys.length) :
    (batchUsers keys models)[i]?
      = some (models.User.find? (fun user => decide (user.id = keys[i]))) := by
  have hmem : keys[i] ∈ keys.dedup := List.mem_dedup.mpr (List.getElem_mem h)
  simp [batchUsers, List.getElem?_map, List.getElem?_eq_getElem h, find?_findAllById _ _ _ hmem]

theorem context_loader (jwt : Jwt) (env : Env) (models : Models) (req : Option Request)
    (connection : Option Connection) (ctx : Context) (log : List Effect)
    (h : context jwt env models req connection = (.ok (some ctx), log)) :
    ∃ loader, ctx.userLoader = some loader ∧
      ∀ keys, loader.batchLoadFn keys = batchUsers keys models := by
  unfold context at h
  cases connection with
  | some c =>
    simp only [Prod.mk.injEq, Except.ok.injEq, Option.some.injEq] at h
    rw [← h.1]
    exact ⟨_, rfl, fun _ => rfl⟩
  | none =>
    cases req with
    | none => simp at h
    | some r =>
      simp only at h
      split at h
      · simp at h
      · simp only [Prod.mk.injEq, Except.ok.injEq, Option.some.injEq] at h
        rw [← h.1]
        exact ⟨_, rfl, fun _ => rfl⟩

/-! ## Authentication check and context construction -/

/-- C1: when the request carries a non-empty `x-token` whose verification fails with any error
`e`, `getMe` fails with the `AuthenticationError` of message
'Your session expired. Sign in again.', request-oriented context construction fails with the
same error, and the raised error is the same whatever the verification failure is. -/
theorem getMe_verification_failure (jwt : Jwt) (env : Env) (models : Models) (req : Request)
    (token : String) (e : VerifyError)
    (hheader : req.header "x-token" = some token) (hne : token ≠ "")
    (hfail : jwt.verify token env.SECRET = .error e) :
    (getMe jwt env req).1 = .error (.AuthenticationError "Your session expired. Sign in again.")
    ∧ (context jwt env models (some req) none).1
        = .error (.AuthenticationError "Your session expired. Sign in again.")
    ∧ ∀ (jwt2 : Jwt) (e2 : VerifyError), jwt2.verify token env.SECRET = .error e2 →
        (getMe jwt2 env req).1 = (getMe jwt env req).1
          ∧ (context jwt2 env models (some req) none).1
              = (context jwt env models (some req) none).1 := by
  have key : ∀ (j : Jwt) (e1 : VerifyError), j.verify token env.SECRET = .error e1 →
      getMe j env req
        = (.error (.AuthenticationError "Your session expired. Sign in again."),
            [.jwtVerify token env.SECRET]) := by
    intro j e1 h1
    simp [getMe, hheader, truthy, hne, h1]
  have ctx : ∀ (j : Jwt) (e1 : VerifyError), j.verify token env.SECRET = .error e1 →
      (context j env models (some req) none).1
        = .error (.AuthenticationError "Your session expired. Sign in again.") := by
    intro j e1 h1
    simp [context, key j e1 h1]
  refine ⟨by rw [key jwt e hfail], ctx jwt e hfail, ?_⟩
  intro jwt2 e2 h2
  exact ⟨by rw [key jwt2 e2 h2, key jwt e hfail], by rw [ctx jwt2 e2 h2, ctx jwt e hfail]⟩

theorem getMe_verification_failure_witness :
    tokenRequest.header "x-token" = some "abc.def.ghi" ∧ "abc.def.ghi" ≠ ""
    ∧ (getMe expiredJwt testEnv tokenRequest).1
        = .error (.AuthenticationError "Your session expired. Sign in again.")
    ∧ (getMe malformedJwt testEnv tokenRequest).1 = (getMe expiredJwt testEnv tokenRequest).1 :=
  ⟨by decide, by decide,
    (getMe_verification_failure expiredJwt testEnv twoUsers tokenRequest "abc.def.ghi"
      { name := "TokenExpiredError", message := "jwt expired" } (by decide) (by decide) rfl).1,
    ((getMe_verification_failure expiredJwt testEnv twoUsers tokenRequest "abc.def.ghi"
      { name := "TokenExpiredError", message := "jwt expired" } (by decide) (by decide) rfl).2.2
        malformedJwt { name := "JsonWebTokenError", message := "jwt malformed" } rfl).1⟩

/-- C2: when the request carries a non-empty `x-token` whose verification succeeds with decoded
claim `c`, `getMe` returns exactly `c` and raises no error. -/
theorem getMe_returns_payload (jwt : Jwt) (env : Env) (req : Request) (token : String)
    (c : JsValue) (hheader : req.header "x-token" = some token) (hne : token ≠ "")
    (hok : jwt.verify token env.SECRET = .ok c) :
    (getMe jwt env req).1 = .ok c := by
  simp [getMe, hheader, truthy, hne, hok]

theorem getMe_returns_payload_witness :
    tokenRequest.header "x-token" = some "abc.def.ghi"
    ∧ (getMe acceptingJwt testEnv tokenRequest).1 = .ok (.object 7) :=
  ⟨by decide,
    getMe_returns_payload acceptingJwt testEnv tokenRequest "abc.def.ghi" (.object 7)
      (by decide) (by decide) rfl⟩

/-- C3: for a request-oriented operation (no connection) whose request has no `x-token` header,
context construction succeeds, makes no verification call (its only library call is the loader
construction), and returns a context whose `me` is `undefined` and which exposes `models`,
`secret` and `loaders.user`. -/
theorem context_anonymous (jwt : Jwt) (env : Env) (models : Models) (req : Request)
    (hheader : req.header "x-token" = none) :
    ∃ ctx : Context,
      context jwt env models (some req) none = (.ok (some ctx), [.newDataLoader])
      ∧ ctx.keys = ["models", "me", "secret", "loaders"]
      ∧ ctx.me = some .undefined
      ∧ ctx.models = some models
      ∧ ctx.secret = some (ofOptionString env.SECRET)
      ∧ ∃ loader, ctx.userLoader = some loader
          ∧ ∀ keys, loader.batchLoadFn keys = batchUsers keys models := by
  have hme : getMe jwt env req = (.ok .undefined, []) := by
    simp [getMe, hheader, truthy]
  refine ⟨[("models", .models models), ("me", .value .undefined),
      ("secret", .value (ofOptionString env.SECRET)),
      ("loaders", .loaders ⟨fun keys => batchUsers keys models⟩)], ?_,
    rfl, rfl, rfl, rfl, _, rfl, fun _ => rfl⟩
  simp only [context, hme]
  rfl

theorem context_anonymous_witness :
    anonymousRequest.header "x-token" = none
    ∧ (context expiredJwt testEnv twoUsers (some anonymousRequest) none).2 = [.newDataLoader] :=
  ⟨by decide,
    (context_anonymous expiredJwt testEnv twoUsers anonymousRequest (by decide)).elim
      (fun _ h => by rw [h.1])⟩

/-- C6: when a connection is present, whatever request and token accompany it, context
construction makes no verification call, raises no error, and returns a context with exactly
the keys `models` and `loaders`, holding the persistence handle and the Identity loader
`loaders.user`, without `me` and without `secret`. -/
theorem context_subscription (jwt : Jwt) (env : Env) (models : Models) (req : Option Request)
    (connection : Connection) :
    ∃ ctx : Context,
      context jwt env models req (some connection) = (.ok (some ctx), [.newDataLoader])
      ∧ ctx.keys = ["models", "loaders"]
      ∧ ctx.models = some models
      ∧ ctx.me = none
      ∧ ctx.secret = none
      ∧ ∃ loader, ctx.userLoader = some loader
          ∧ ∀ keys, loader.batchLoadFn keys = batchUsers keys models :=
  ⟨_, rfl, rfl, rfl, rfl, rfl, _, rfl, fun _ => rfl⟩

/-- C8: for the batch function of the Identity loader wired in any context that `context`
returns, the result for a key sequence `K` has the length of `K`, and its `i`-th slot is the
row of the users table whose id is `K[i]`, or absent when there is none. -/
theorem context_loader_batch (jwt : Jwt) (env : Env) (models : Models) (req : Option Request)
    (connection : Option Connection) (ctx : Context) (log : List Effect) (loader : DataLoader)
    (hctx : context jwt env models req connection = (.ok (some ctx), log))
    (hloader : ctx.userLoader = some loader) (K : List Nat) :
    (loader.batchLoadFn K).length = K.length
    ∧ ∀ (i : Nat) (h : i < K.length),
        (loader.batchLoadFn K)[i]?
          = some (models.User.find? (fun user => decide (user.id = K[i]))) := by
  obtain ⟨l, hl, hbatch⟩ := context_loader jwt env models req connection ctx log hctx
  have : l = loader := Option.some.inj (hl.symm.trans hloader)
  subst this
  rw [hbatch]
  exact ⟨batchUsers_length K models, fun i h => batchUsers_getElem? K models i h⟩

theorem context_loader_batch_witness :
    ((⟨fun keys => batchUsers keys twoUsers⟩ : DataLoader).batchLoadFn [2, 5, 2, 1]).length = 4
    ∧ ((⟨fun keys => batchUsers keys twoUsers⟩ : DataLoader).batchLoadFn [2, 5, 2, 1])[1]?
        = some (twoUsers.User.find? (fun user => decide (user.id = 5))) :=
  have h := context_loader_batch expiredJwt testEnv twoUsers none
    (some { context := .undefined })
    [("models", .models twoUsers), ("loaders", .loaders ⟨fun keys => batchUsers keys twoUsers⟩)]
    [.newDataLoader] ⟨fun keys => batchUsers keys twoUsers⟩ rfl rfl [2, 5, 2, 1]
  ⟨h.1, h.2 1 (by decide)⟩


/-! ## Error sanitizer -/

/-- C4: for every string `m`, `formatError` maps an error whose message is
'SequelizeValidationError: Validation error: ' followed by `m` to an error whose message is
exactly `m`; in particular 'SequelizeValidationError: Validation error: must be unique' yields
'must be unique'. -/
theorem formatError_strips_prefixes (m : String) (props : List Property) :
    (formatError
        { message := "SequelizeValidationError: Validation error: " ++ m, props := props }).message
      = m
    ∧ (formatError
        { message := "SequelizeValidationError: Validation error: must be unique",
          props := props }).message = "must be unique" := by
  have general : ∀ rest : String,
      (formatError
        { message := "SequelizeValidationError: Validation error: " ++ rest,
          props := props }).message = rest := by
    intro rest
    have h : "SequelizeValidationError: Validation error: " ++ rest
        = "SequelizeValidationError: " ++ ("Validation error: " ++ rest) := by
      rw [← String.append_assoc]
      rfl
    simp only [formatError]
    rw [h, replace_prefix, replace_prefix]
  exact ⟨general m, general "must be unique"⟩

/-- C5 fails for a field that is not enumerable: the error `errorWithOriginal` has the own
field `originalError`, and the sanitized error has no such field. -/
theorem formatError_drops_originalError :
    getOwnProperty errorWithOriginal.props "originalError"
        = some { key := "originalError", value := .object 1, enumerable := false }
    ∧ getOwnProperty (formatError errorWithOriginal).props "originalError" = none := by
  decide

/-- C5, amended: for every error `e`, `formatError` returns an error object; every own
enumerable field of `e` other than `message` appears in the result with the same value, and
every field of the result other than `message` is an own enumerable field of `e`. -/
theorem formatError_passes_enumerable_fields (e : GraphQLError) :
    (∀ (k : String) (p : Property), getOwnProperty e.props k = some p → p.enumerable = true →
        getOwnProperty (formatError e).props k = some p)
    ∧ (∀ (k : String) (p : Property), getOwnProperty (formatError e).props k = some p →
        p ∈ e.props ∧ p.enumerable = true ∧ p.key = k) :=
  ⟨fun k p h he => getOwnProperty_spread e.props k p h he,
    fun k p h => of_getOwnProperty_spread e.props k p h⟩

theorem formatError_passes_enumerable_fields_witness :
    getOwnProperty errorWithOriginal.props "path"
        = some { key := "path", value := .object 3, enumerable := true }
    ∧ getOwnProperty (formatError errorWithOriginal).props "path"
        = some { key := "path", value := .object 3, enumerable := true } :=
  ⟨by decide,
    (formatError_passes_enumerable_fields errorWithOriginal).1 "path"
      { key := "path", value := .object 3, enumerable := true } (by decide) rfl⟩

/-- C9 at the message Sequelize gives for two failed validators,
'Validation error: A,\nValidation error: B': the sanitized message is
'A,\nValidation error: B', which still contains 'Validation error: ', and sanitizing the
sanitized error changes it again. -/
theorem formatError_keeps_second_occurrence :
    (formatError twoValidatorsError).message = "A,\nValidation error: B"
    ∧ occursIn "Validation error: " (formatError twoValidatorsError).message
    ∧ (formatError (formatError twoValidatorsError)).message = "A,\nB"
    ∧ formatError (formatError twoValidatorsError) ≠ formatError twoValidatorsError := by
  decide

/-! ## Seed data and start-up -/

/-- C7 fails at an offset transition of the local zone, beyond the range of time values and
when the first creation is rejected. In the zone `newYork`, from 2026-11-01T06:30:00Z (the
second 01:30 of the night the clocks go back) the three timestamps are 3599, 3598 and 3597
seconds before the start date, and from 2026-11-01T05:59:59Z the first one is 3601 seconds
after it; from the last time value 8.64e15 all three are `NaN`; and when the first creation is
rejected only one creation is issued. -/
theorem createUsersWithMessages_at_transition :
    (createUsersWithMessages newYork createResolves { time := some 1793514600000 }).1.map
        (fun user => (user.username, user.messages.map (fun message => message.createdAt)))
      = [("rwieruch", [some (1793514600000 - 3599000)]),
         ("ddavids", [some (1793514600000 - 3598000), some (1793514600000 - 3597000)])]
    ∧ (createUsersWithMessages newYork createResolves { time := some 1793512799000 }).1.map
        (fun user => (user.username, user.messages.map (fun message => message.createdAt)))
      = [("rwieruch", [some (1793512799000 + 3601000)]),
         ("ddavids", [some (1793512799000 + 3602000), some (1793512799000 + 3603000)])]
    ∧ (createUsersWithMessages utcZone createResolves { time := some 8640000000000000 }).1.map
        (fun user => (user.username, user.messages.map (fun message => message.createdAt)))
      = [("rwieruch", [none]), ("ddavids", [none, none])]
    ∧ (createUsersWithMessages utcZone createRejects { time := some 1793966400000 }).1.map
        (fun user => (user.username, user.messages.map (fun message => message.createdAt)))
      = [("rwieruch", [some (1793966400000 + 1000)])] := by
  decide

/-- C7, amended: for every valid start date `d` with `d + 3000` inside the range of time
values, in a local zone whose offset is steady over the three seconds after `d`
(`steadyOffset`), and when the first creation resolves, the seed routine issues exactly two
creations, 'rwieruch' with one message and 'ddavids' with two, and the three `createdAt`
values are, in creation order, `d + 1000`, `d + 2000` and `d + 3000` milliseconds: each one
second after the previous one, strictly increasing and pairwise distinct, though all three
come from mutating the one date object, which ends at `d + 3000`. -/
theorem createUsersWithMessages_timestamps (tz : TimeZone) (create : UserInput → Bool) (d : Int)
    (hlo : -8640000000000000 ≤ d) (hhi : d + 3000 ≤ 8640000000000000)
    (hzone : steadyOffset tz d)
    (hcreate : ∀ user : UserInput, user.username = "rwieruch" → create user = true) :
    (createUsersWithMessages tz create { time := some d }).1.map
        (fun user => (user.username, user.messages.map (fun message => message.createdAt)))
      = [("rwieruch", [some (d + 1000)]), ("ddavids", [some (d + 2000), some (d + 3000)])]
    ∧ (createUsersWithMessages tz create { time := some d }).2 = { time := some (d + 3000) }
    ∧ d < d + 1000 ∧ d + 1000 < d + 2000 ∧ d + 2000 < d + 3000
    ∧ (d + 2000) - (d + 1000) = 1000 ∧ (d + 3000) - (d + 2000) = 1000 := by
  rw [createUsersWithMessages_eq tz create d hlo hhi hzone hcreate]
  exact ⟨rfl, rfl, by omega, by omega, by omega, by omega, by omega⟩

theorem createUsersWithMessages_timestamps_witness :
    steadyOffset newYork 1793966400000
    ∧ (createUsersWithMessages newYork createResolves { time := some 1793966400000 }).1.map
        (fun user => (user.username, user.messages.map (fun message => message.createdAt)))
      = [("rwieruch", [some (1793966400000 + 1000)]),
         ("ddavids", [some (1793966400000 + 2000), some (1793966400000 + 3000)])] :=
  ⟨by decide,
    (createUsersWithMessages_timestamps newYork createResolves 1793966400000
      (by decide) (by decide) (by decide) (fun _ _ => rfl)).1⟩

/-- C10 fails when both `DATABASE_URL` and `TEST_DATABASE` are set: the connection is built
from `DATABASE_URL`, yet `sync` is called with `force: true` and seed data is inserted. -/
theorem startup_resets_database_url :
    connectionSource urlAndTestEnv = .DATABASE_URL
    ∧ sequelize urlAndTestEnv = .url "postgres://db.example.com/production" "postgres"
    ∧ (startup urlAndTestEnv utcZone createResolves 0 true).head?
        = some (.sync (.url "postgres://db.example.com/production" "postgres") true)
    ∧ resetsSchema (startup urlAndTestEnv utcZone createResolves 0 true) = true
    ∧ insertsSeed (startup urlAndTestEnv utcZone createResolves 0 true) = true := by
  decide

/-- C10, amended: start-up calls `sync` on the selected connection with `force` true exactly
when `TEST_DATABASE` is set and non-empty, and inserts seed data only then. With `DATABASE_URL`
unset or empty that is exactly when the connection is built from `TEST_DATABASE`; whenever
`TEST_DATABASE` is unset or empty, in particular whenever the connection is built from
`DATABASE`, `force` is false and no seed data is inserted. -/
theorem startup_resets_iff_test_database (env : Env) (tz : TimeZone)
    (create : UserInput → Bool) (now : Int) (syncOk : Bool) :
    (startup env tz create now syncOk).head?
      = some (.sync (sequelize env) (truthy env.TEST_DATABASE))
    ∧ (resetsSchema (startup env tz create now syncOk) = true ↔ truthy env.TEST_DATABASE = true)
    ∧ (insertsSeed (startup env tz create now syncOk) = true → truthy env.TEST_DATABASE = true)
    ∧ (truthy env.DATABASE_URL = false →
        (resetsSchema (startup env tz create now syncOk) = true
          ↔ connectionSource env = .TEST_DATABASE))
    ∧ (connectionSource env = .TEST_DATABASE →
        sequelize env
          = .fields env.TEST_DATABASE env.DATABASE_USER env.DATABASE_PASSWORD "postgres")
    ∧ (connectionSource env = .DATABASE →
        resetsSchema (startup env tz create now syncOk) = false
          ∧ insertsSeed (startup env tz create now syncOk) = false) := by
  obtain ⟨user, rest, hseed⟩ :=
    createUsersWithMessages_issues_first tz create { time := some now }
  have hrest := resetsSchema_creates rest
  have hstart : startup env tz create now syncOk
      = .sync (sequelize env) (truthy env.TEST_DATABASE) ::
          (if syncOk then
            (if truthy env.TEST_DATABASE then
              .create user :: .listen 8000 :: rest.map .create
             else [.listen 8000])
           else []) := by
    simp only [startup, isTest, hseed]
  rw [hstart]
  unfold resetsSchema at hrest
  cases syncOk <;> cases h1 : truthy env.TEST_DATABASE <;> cases h2 : truthy env.DATABASE_URL <;>
    simp [resetsSchema, insertsSeed, connectionSource, sequelize, orElse, h1, h2, hrest]

theorem startup_resets_iff_test_database_witness :
    connectionSource plainEnv = .DATABASE
    ∧ resetsSchema (startup plainEnv utcZone createResolves 1700000000000 true) = false
    ∧ insertsSeed (startup plainEnv utcZone createResolves 1700000000000 true) = false :=
  ⟨by decide,
    (startup_resets_iff_test_database plainEnv utcZone createResolves 1700000000000
      true).2.2.2.2.2 (by decide)⟩

end NodeApollo
